import Mathlib

/-!
Shallow embedding of the personalized-news-portal core pipeline:
content resolution, summarization and grounded Q&A request handling,
feedback updates (from src/frontend/src/App.js), the users/articles
schema defaults (from the SQL schema under src/attached_assets), and a
spec-modelled Feed Ranker (the backend implementing it is not in the
repository snapshot).

JavaScript string truthiness is modelled explicitly: a field of type
Option String is falsy when it is none (null/undefined) or some of the
empty string, matching the semantics of the `a || b` and `if (!x)`
forms used in the source.
-/

def emptyString : String := ""

/-- Sentinel set by handleExplain when neither content nor summary is present
(App.js line 1449). -/
def noContentMsg : String := "No content available to explain."

/-- Fixed failure message set by handleExplain's catch block (App.js line 1461). -/
def explainFailMsg : String := "Failed to generate explanation. Please try again."

/-- Fixed failure message set by handleQuerySubmit's catch block (App.js line 1491). -/
def askFailMsg : String := "Failed to get an answer. Please try again."

/-- The default knowledge level used throughout the source. -/
def intermediateLevel : String := "Intermediate"

def likeType : String := "like"

def dislikeType : String := "dislike"

/-- JavaScript truthiness of a possibly-missing string value: null/undefined
and the empty string are falsy, every other string is truthy. -/
def jsTruthy : Option String → Bool
  | none => false
  | some s => !s.isEmpty

/-- JavaScript `a || b` on possibly-missing string values: returns a when a is
truthy, otherwise b (which may itself be falsy). -/
def jsOr (a b : Option String) : Option String :=
  if jsTruthy a then a else b

/-- JavaScript `a || b` where b is a non-null string literal; the result is a
plain string, as in `localStorage.getItem(k) || defaultValue`. -/
def jsOrString (a : Option String) (b : String) : String :=
  if jsTruthy a then a.getD b else b

/-- Whitespace characters removed by JavaScript String.prototype.trim
(restricted to the ASCII whitespace relevant here). -/
def jsWhitespace (c : Char) : Bool :=
  c = ' ' || c = '\t' || c = '\n' || c = '\r'

/-- JavaScript `s.trim()`: strip leading and trailing whitespace. -/
def jsTrim (s : String) : String :=
  String.mk (((s.data.dropWhile jsWhitespace).reverse.dropWhile jsWhitespace).reverse)

/-- An article record as the frontend consumes it (articles table columns plus
the client-side feedback field that handleFeedback maintains). -/
structure Article where
  id : Option String
  title : String
  categories : List String
  content : Option String
  summary : Option String
  published_date : Option Nat
  is_trending : Bool
  feedback : Option String
deriving DecidableEq

/-- Outcome of the resolution policy of handleExplain (App.js lines 1446-1451):
full content is preferred, the summary is the fallback, and a falsy result is
an explicit absence. -/
inductive Resolved where
  | full (text : String)
  | fromSummary (text : String)
  | absent
deriving DecidableEq

/-- The content-resolution policy computed by handleExplain:
`activeArticle.content || activeArticle.summary`, with a falsy result treated
as absent; the kind records which field supplied the text. -/
def resolve (article : Article) : Resolved :=
  if jsTruthy article.content then Resolved.full (article.content.getD emptyString)
  else if jsTruthy article.summary then Resolved.fromSummary (article.summary.getD emptyString)
  else Resolved.absent

/-- Body of the POST to /articles/summarize (App.js lines 1453-1456). -/
structure SummarizeRequest where
  content : String
  knowledge_level : String
deriving DecidableEq

/-- Observable outcome of one handleExplain run: the explanation state after
the run (none = left unchanged), the backend requests issued, and the final
value of the explanationLoading flag. -/
structure ExplainState where
  explanation : Option String
  requests : List SummarizeRequest
  finalLoading : Bool
deriving DecidableEq

/-- handleExplain (App.js lines 1440-1465). Returns early when no article is
active; computes `content || summary`; on a falsy result sets the sentinel and
issues no request; otherwise POSTs to /articles/summarize with the stored
knowledge level defaulted to Intermediate, setting either the returned summary
or the fixed failure message; the finally block resets the loading flag on
every path that set it. -/
def handleExplain (activeArticle : Option Article) (storedLevel : Option String)
    (backend : SummarizeRequest → Except Unit String)
    (prevLoading : Bool) (prevExplanation : Option String) : ExplainState :=
  match activeArticle with
  | none =>
      { explanation := prevExplanation, requests := [], finalLoading := prevLoading }
  | some article =>
      let contentToExplain := jsOr article.content article.summary
      if !jsTruthy contentToExplain then
        { explanation := some noContentMsg, requests := [], finalLoading := false }
      else
        let req : SummarizeRequest :=
          { content := contentToExplain.getD emptyString,
            knowledge_level := jsOrString storedLevel intermediateLevel }
        match backend req with
        | Except.ok s =>
            { explanation := some s, requests := [req], finalLoading := false }
        | Except.error _ =>
            { explanation := some explainFailMsg, requests := [req], finalLoading := false }

/-- Body of the POST to /articles/ask (App.js lines 1474-1484): the query plus
either an article_id or an ad-hoc context, never both. -/
structure AskRequest where
  query : String
  article_id : Option String
  context : Option String
deriving DecidableEq

/-- Payload construction of handleQuerySubmit (App.js lines 1474-1484): if the
active article has a truthy id, send article_id; otherwise fall back to its
content, then its summary, as ad-hoc context. -/
def buildAskPayload (query : String) (article : Article) : AskRequest :=
  if jsTruthy article.id then
    { query := query, article_id := article.id, context := none }
  else if jsTruthy article.content then
    { query := query, article_id := none, context := article.content }
  else if jsTruthy article.summary then
    { query := query, article_id := none, context := article.summary }
  else
    { query := query, article_id := none, context := none }

/-- Observable outcome of one handleQuerySubmit run. -/
structure QueryState where
  queryAnswer : Option String
  requests : List AskRequest
  finalLoading : Bool
deriving DecidableEq

/-- handleQuerySubmit (App.js lines 1467-1495). Returns early (no request, no
state change) when the trimmed query is empty or no article is active;
otherwise POSTs the built payload to /articles/ask, setting either the answer
or the fixed failure message; the finally block resets the loading flag. -/
def handleQuerySubmit (query : String) (activeArticle : Option Article)
    (backend : AskRequest → Except Unit String)
    (prevLoading : Bool) (prevAnswer : Option String) : QueryState :=
  if (jsTrim query).isEmpty || activeArticle.isNone then
    { queryAnswer := prevAnswer, requests := [], finalLoading := prevLoading }
  else
    match activeArticle with
    | none =>
        { queryAnswer := prevAnswer, requests := [], finalLoading := prevLoading }
    | some article =>
        let payload := buildAskPayload query article
        match backend payload with
        | Except.ok ans =>
            { queryAnswer := some ans, requests := [payload], finalLoading := false }
        | Except.error _ =>
            { queryAnswer := some askFailMsg, requests := [payload], finalLoading := false }

/-- Body of the POST to /articles/:id/feedback (App.js lines 1499-1502). -/
structure FeedbackRequest where
  article_id : String
  feedback_type : String
deriving DecidableEq

/-- handleFeedback (App.js lines 1497-1516): POST the feedback, then on
success overwrite the feedback field of the matching article in the list; on
failure the list is left unchanged (the catch block only logs). -/
def handleFeedback (articles : List Article) (articleId feedbackType : String)
    (backend : FeedbackRequest → Except Unit Unit) : List Article :=
  match backend { article_id := articleId, feedback_type := feedbackType } with
  | Except.error _ => articles
  | Except.ok _ =>
      articles.map (fun article =>
        if article.id = some articleId then { article with feedback := some feedbackType }
        else article)

/-- Initial knowledge level of the onboarding wizard (App.js line 1045,
`useState` argument). -/
def onboardingInitialKnowledgeLevel : String := "Intermediate"

/-- Column default of users.knowledge_level in the SQL schema
(attached_assets, line 12). -/
def usersKnowledgeLevelDefault : String := "Intermediate"

/-- A user's preference snapshot as the Feed Ranker consumes it. -/
structure UserPreference where
  interests : List String
  knowledgeLevel : String
  feedback : List (String × String)
deriving DecidableEq

/-- Interest-overlap score: size of the intersection of the article's
categories with the user's interests (spec section 4.1, step 1). -/
def interestOverlap (prefs : UserPreference) (article : Article) : Nat :=
  (article.categories.filter (fun c => prefs.interests.contains c)).length

/-- Modelled from the spec: the Feed Ranker lives in the backend
(backend/server.py per the workflow config), which is absent from the
snapshot; the spec leaves the exact constant unspecified, so a documented
concrete choice is made here (section 4.1, step 2). -/
def trendingBonus : Int := 1

/-- Modelled from the spec: concrete choice for the unspecified feedback
penalty (section 4.1, step 3). -/
def dislikePenalty : Int := 2

/-- Last-written feedback of the user for the given article. -/
def feedbackFor (prefs : UserPreference) (article : Article) : Option String :=
  (prefs.feedback.reverse.find? (fun p => some p.fst = article.id)).map (fun p => p.snd)

def publishedValue (article : Article) : Nat := article.published_date.getD 0

def idValue (article : Article) : String := article.id.getD emptyString

/-- Modelled from the spec: ranking score = interest overlap plus trending
bonus minus dislike penalty (section 4.1, steps 1-3). -/
def score (prefs : UserPreference) (article : Article) : Int :=
  (interestOverlap prefs article : Int)
    + (if article.is_trending then trendingBonus else 0)
    - (if feedbackFor prefs article = some dislikeType then dislikePenalty else 0)

/-- Modelled from the spec: ordering relation for the ranked feed — higher
score first, then newest published timestamp, then stable identifier order
(section 4.1, step 4). -/
def rankBefore (prefs : UserPreference) (a b : Article) : Bool :=
  if score prefs a ≠ score prefs b then decide (score prefs b < score prefs a)
  else if publishedValue a ≠ publishedValue b then decide (publishedValue b < publishedValue a)
  else decide (idValue a ≤ idValue b)

/-- Modelled from the spec: `rank(userPreferences, candidateArticles)` sorts
the candidate collection by the ranking order; nothing is filtered out and
nothing is added (section 4.1, step 5). -/
def rank (prefs : UserPreference) (candidates : List Article) : List Article :=
  List.insertionSort (fun a b => rankBefore prefs a b = true) candidates

def idA : String := "a1"

def idB : String := "b2"

def titleA : String := "Title A"

def titleB : String := "Title B"

def catNlp : String := "nlp"

def contentText : String := "full text"

def summaryBrief : String := "brief"

def generatedText : String := "generated"

def questionText : String := "What is this about?"

def whitespaceQuery : String := "   "

def artBoth : Article :=
  { id := some idA, title := titleA, categories := [catNlp],
    content := some contentText, summary := some summaryBrief,
    published_date := some 5, is_trending := false, feedback := none }

def artBothAlt : Article :=
  { artBoth with id := some idB, title := titleB, is_trending := true }

def artSummaryOnly : Article :=
  { id := some idB, title := titleB, categories := [],
    content := none, summary := some summaryBrief,
    published_date := none, is_trending := true, feedback := none }

def artEmpty : Article :=
  { id := some idA, title := titleA, categories := [],
    content := none, summary := none,
    published_date := none, is_trending := false, feedback := none }

def artEmptyContent : Article :=
  { id := some idA, title := titleA, categories := [],
    content := some emptyString, summary := some summaryBrief,
    published_date := none, is_trending := false, feedback := none }

def artBothLiked : Article := { artBoth with feedback := some likeType }

def prefsA : UserPreference :=
  { interests := [catNlp], knowledgeLevel := intermediateLevel, feedback := [] }

def okBackend : SummarizeRequest → Except Unit String := fun _ => Except.ok generatedText

def defaultLevelReq : SummarizeRequest :=
  { content := contentText, knowledge_level := intermediateLevel }

def failBackend : SummarizeRequest → Except Unit String := fun _ => Except.error ()

def failAskBackend : AskRequest → Except Unit String := fun _ => Except.error ()

def okFeedbackBackend : FeedbackRequest → Except Unit Unit := fun _ => Except.ok ()

theorem emptyString_isEmpty : emptyString.isEmpty = true := rfl

theorem jsTruthy_some_emptyString : jsTruthy (some emptyString) = false := rfl

/-- C1: content resolution prefers full content over summary — the selected
text is the article's content when truthy, otherwise its summary, and when
neither is truthy the result is explicit absence and handleExplain issues no
generation request. -/
theorem content_resolution_prefers_full (a : Article) :
    (jsTruthy a.content = true →
      resolve a = Resolved.full (a.content.getD emptyString) ∧
      jsOr a.content a.summary = a.content) ∧
    (jsTruthy a.content = false → jsTruthy a.summary = true →
      resolve a = Resolved.fromSummary (a.summary.getD emptyString) ∧
      jsOr a.content a.summary = a.summary) ∧
    (jsTruthy a.content = false → jsTruthy a.summary = false →
      resolve a = Resolved.absent ∧
      ∀ kl backend prevL prevE,
        (handleExplain (some a) kl backend prevL prevE).requests = []) := by
  refine ⟨fun hc => ?_, fun hc hs => ?_, fun hc hs => ?_⟩
  · simp [resolve, jsOr, hc]
  · simp [resolve, jsOr, hc, hs]
  · refine ⟨by simp [resolve, hc, hs], fun kl backend prevL prevE => ?_⟩
    simp [handleExplain, jsOr, hc, hs]

/-- Witness for C1 at a concrete article that has a summary but no content. -/
theorem content_resolution_prefers_full_witness :
    resolve artSummaryOnly = Resolved.fromSummary (artSummaryOnly.summary.getD emptyString) :=
  ((content_resolution_prefers_full artSummaryOnly).2.1 (by decide) (by decide)).1

/-- C2: for an article with neither content nor summary, handleExplain
short-circuits with the fixed sentinel, issues zero backend requests, and
resets the loading flag. -/
theorem explain_absent_short_circuits (a : Article) (storedLevel : Option String)
    (backend : SummarizeRequest → Except Unit String) (prevLoading : Bool)
    (prevExplanation : Option String)
    (hc : jsTruthy a.content = false) (hs : jsTruthy a.summary = false) :
    handleExplain (some a) storedLevel backend prevLoading prevExplanation =
      { explanation := some noContentMsg, requests := [], finalLoading := false } := by
  simp [handleExplain, jsOr, hc, hs]

/-- Witness for C2 at the concrete article with no content and no summary. -/
theorem explain_absent_short_circuits_witness :
    handleExplain (some artEmpty) none failBackend true none =
      { explanation := some noContentMsg, requests := [], finalLoading := false } :=
  explain_absent_short_circuits artEmpty none failBackend true none (by decide) (by decide)

/-- C3: an empty or whitespace-only query is rejected before any backend
invocation — handleQuerySubmit returns with zero requests and unchanged
state. -/
theorem empty_query_rejected (query : String) (activeArticle : Option Article)
    (backend : AskRequest → Except Unit String) (prevLoading : Bool)
    (prevAnswer : Option String) (h : jsTrim query = emptyString) :
    handleQuerySubmit query activeArticle backend prevLoading prevAnswer =
      { queryAnswer := prevAnswer, requests := [], finalLoading := prevLoading } := by
  simp [handleQuerySubmit, h, emptyString_isEmpty]

/-- Witness for C3 at a concrete whitespace-only query. -/
theorem empty_query_rejected_witness :
    handleQuerySubmit whitespaceQuery (some artBoth) failAskBackend false none =
      { queryAnswer := none, requests := [], finalLoading := false } :=
  empty_query_rejected whitespaceQuery (some artBoth) failAskBackend false none (by decide)

/-- C4: when the generation backend fails, handleExplain and handleQuerySubmit
surface the respective fixed failure messages and reset their loading flags;
no raw exception escapes (both handlers return total outcomes). -/
theorem backend_failure_fixed_message (a : Article) (storedLevel : Option String)
    (sBackend : SummarizeRequest → Except Unit String)
    (aBackend : AskRequest → Except Unit String) (query : String)
    (prevL prevL' : Bool) (prevE prevA : Option String)
    (hres : jsTruthy (jsOr a.content a.summary) = true)
    (hsb : ∀ r, sBackend r = Except.error ())
    (hq : (jsTrim query).isEmpty = false)
    (hab : ∀ r, aBackend r = Except.error ()) :
    (handleExplain (some a) storedLevel sBackend prevL prevE).explanation =
        some explainFailMsg ∧
    (handleExplain (some a) storedLevel sBackend prevL prevE).finalLoading = false ∧
    (handleQuerySubmit query (some a) aBackend prevL' prevA).queryAnswer =
        some askFailMsg ∧
    (handleQuerySubmit query (some a) aBackend prevL' prevA).finalLoading = false := by
  refine ⟨?_, ?_, ?_, ?_⟩ <;>
    simp [handleExplain, handleQuerySubmit, hres, hsb, hab, hq]

/-- Witness for C4 at a concrete article, query and always-failing backends. -/
theorem backend_failure_fixed_message_witness :
    (handleExplain (some artBoth) none failBackend false none).explanation =
        some explainFailMsg ∧
    (handleExplain (some artBoth) none failBackend false none).finalLoading = false ∧
    (handleQuerySubmit questionText (some artBoth) failAskBackend false none).queryAnswer =
        some askFailMsg ∧
    (handleQuerySubmit questionText (some artBoth) failAskBackend false none).finalLoading = false :=
  backend_failure_fixed_message artBoth none failBackend failAskBackend questionText
    false false none none (by decide) (fun _ => rfl) (by decide) (fun _ => rfl)

/-- C5: the article identifier takes precedence in the ask payload — with a
truthy id the payload carries article_id and omits context; context (content,
else summary, when truthy) is sent only when no identifier exists. -/
theorem article_id_takes_precedence (query : String) (a : Article) :
    (jsTruthy a.id = true →
      buildAskPayload query a =
        { query := query, article_id := a.id, context := none }) ∧
    (jsTruthy a.id = false →
      (buildAskPayload query a).article_id = none ∧
      (buildAskPayload query a).context =
        (if jsTruthy (jsOr a.content a.summary) then jsOr a.content a.summary else none)) := by
  refine ⟨fun hid => ?_, fun hid => ?_⟩
  · simp [buildAskPayload, hid]
  · cases hc : jsTruthy a.content <;> cases hs : jsTruthy a.summary <;>
      simp [buildAskPayload, jsOr, hid, hc, hs]

/-- Witness for C5 at a concrete article that has an id, content and summary. -/
theorem article_id_takes_precedence_witness :
    buildAskPayload questionText artBoth =
      { query := questionText, article_id := artBoth.id, context := none } :=
  (article_id_takes_precedence questionText artBoth).1 (by decide)

/-- C6: the ranked feed is a permutation of the candidate collection — no
article is added or dropped, and in particular zero-overlap articles remain
in the output. -/
theorem rank_is_permutation (prefs : UserPreference) (candidates : List Article) :
    (rank prefs candidates).Perm candidates ∧
    ∀ a, a ∈ candidates → interestOverlap prefs a = 0 → a ∈ rank prefs candidates := by
  refine ⟨List.perm_insertionSort _ _, fun a ha _ => ?_⟩
  exact (List.perm_insertionSort _ candidates).mem_iff.mpr ha

/-- Witness for C6: the zero-overlap article survives ranking of a concrete
two-article candidate list. -/
theorem rank_is_permutation_witness :
    artSummaryOnly ∈ rank prefsA [artBoth, artSummaryOnly] :=
  (rank_is_permutation prefsA [artBoth, artSummaryOnly]).2 artSummaryOnly
    (by decide) (by decide)

/-- C7: feedback is last-write-wins per article — after a successful feedback
event of type t for an article id, every matching article in the resulting
list carries feedback t regardless of its earlier feedback value, and the
single feedback field per record holds at most one entry. -/
theorem feedback_last_write_wins (articles : List Article)
    (articleId feedbackType : String) (backend : FeedbackRequest → Except Unit Unit)
    (hb : ∀ r, backend r = Except.ok ()) :
    ∀ x ∈ handleFeedback articles articleId feedbackType backend,
      x.id = some articleId → x.feedback = some feedbackType := by
  intro x hx hid
  rw [handleFeedback, hb] at hx
  obtain ⟨y, _, rfl⟩ := List.mem_map.mp hx
  by_cases hy : y.id = some articleId
  · simp [hy]
  · simp only [if_neg hy] at hid ⊢
    exact absurd hid hy

/-- Witness for C7: after liking the concrete article, the updated record in
the list carries the like. -/
theorem feedback_last_write_wins_witness :
    artBothLiked.feedback = some likeType :=
  feedback_last_write_wins [artBoth] idA likeType okFeedbackBackend (fun _ => rfl)
    artBothLiked (by decide) (by decide)

/-- C8: content resolution is deterministic — two articles agreeing on the
content and summary fields resolve to the same kind and text; no hidden state
is consulted. -/
theorem resolve_deterministic (a b : Article)
    (hc : a.content = b.content) (hs : a.summary = b.summary) :
    resolve a = resolve b := by
  simp [resolve, hc, hs]

/-- Witness for C8: two concrete articles differing in id, title and trending
flag but agreeing on content and summary resolve identically. -/
theorem resolve_deterministic_witness :
    resolve artBoth = resolve artBothAlt :=
  resolve_deterministic artBoth artBothAlt (by decide) (by decide)

/-- C9: an article whose content is the empty string and whose summary is
non-empty resolves to the summary — empty-string content counts as absent
under JavaScript truthiness, so full content with empty text is never
selected. -/
theorem empty_content_falls_back_to_summary (a : Article)
    (hc : a.content = some emptyString) (hs : jsTruthy a.summary = true) :
    resolve a = Resolved.fromSummary (a.summary.getD emptyString) ∧
    jsOr a.content a.summary = a.summary := by
  constructor
  · simp [resolve, hc, jsTruthy_some_emptyString, hs]
  · simp [jsOr, hc, jsTruthy_some_emptyString]

/-- Witness for C9 at the concrete article with empty-string content. -/
theorem empty_content_falls_back_to_summary_witness :
    resolve artEmptyContent =
      Resolved.fromSummary (artEmptyContent.summary.getD emptyString) :=
  (empty_content_falls_back_to_summary artEmptyContent (by decide) (by decide)).1

/-- C10: the knowledge level defaults to Intermediate everywhere it is
unspecified — a summarize request built with nothing stored carries
Intermediate, the onboarding wizard initializes to Intermediate, and the
users table column defaults to Intermediate. -/
theorem knowledge_level_defaults_intermediate (a : Article)
    (backend : SummarizeRequest → Except Unit String) (prevLoading : Bool)
    (prevExplanation : Option String)
    (hres : jsTruthy (jsOr a.content a.summary) = true) :
    ((handleExplain (some a) none backend prevLoading prevExplanation).requests ≠ [] ∧
      ∀ req ∈ (handleExplain (some a) none backend prevLoading prevExplanation).requests,
        req.knowledge_level = intermediateLevel) ∧
    onboardingInitialKnowledgeLevel = intermediateLevel ∧
    usersKnowledgeLevelDefault = intermediateLevel := by
  refine ⟨⟨?_, fun req hreq => ?_⟩, rfl, rfl⟩
  · simp only [handleExplain]
    split
    · next hcond => simp [hres] at hcond
    · split <;> simp
  · simp only [handleExplain] at hreq
    split at hreq
    · simp at hreq
    · split at hreq <;> simp at hreq <;> simp [hreq, jsOrString, jsTruthy]

/-- Witness for C10 at a concrete article and an always-succeeding backend. -/
theorem knowledge_level_defaults_intermediate_witness :
    defaultLevelReq.knowledge_level = intermediateLevel :=
  (knowledge_level_defaults_intermediate artBoth okBackend false none (by decide)).1.2
    defaultLevelReq (by decide)
